import Mathlib

/-!
Verification of the memory-bridge plugin (novusflow-gateway).

Shallow embedding of:
- the tool parameter readers and the six memory tools
  (src/extensions/memory-bridge/src/runtime.ts, tools section);
- the connection lifecycle service MemoryBridgeService
  (src/extensions/memory-bridge/src/runtime.ts, service section);
- the namespace allow-list validator validateSchema and the
  validated store tool of the alternative plugin variant
  (src/extensions/memory-bridge/src/config.ts).

JavaScript exceptions thrown out of an async execute are modelled as
Except.error; values returned through jsonResult are modelled by the
structured payload (a JsonValue) handed to jsonResult.  Backend method
invocations are recorded in a call trace so that "the backend is never
called" is a statement about the trace.
-/

namespace MemoryBridge

/-- JSON-like runtime values, modelling the untyped `params` record the
tool execute functions receive and the payloads they return. -/
inductive JsonValue where
  | vNull : JsonValue
  | vBool : Bool → JsonValue
  | vNum : Int → JsonValue
  | vStr : String → JsonValue
  | vArr : List JsonValue → JsonValue
  | vObj : List (String × JsonValue) → JsonValue

/-- The `params: Record<string, unknown>` argument of a tool execute. -/
abbrev Params := List (String × JsonValue)

/-- JavaScript String.prototype.trim, modelled on the character list
(whitespace stripped from both ends). -/
def jsTrim (s : String) : String :=
  ⟨((s.data.dropWhile Char.isWhitespace).reverse.dropWhile Char.isWhitespace).reverse⟩

/-- JavaScript String.prototype.toLowerCase, modelled per character. -/
def jsToLower (s : String) : String :=
  ⟨s.data.map Char.toLower⟩

/-- Transcribes readStringParam (runtime.ts tools section, lines 61-78).
`typeof raw !== "string"` covers both an absent key and a non-string
value; an empty string after trimming counts as missing.  With
`required = true` the TS function throws `` `${key} required` ``,
modelled as Except.error. -/
def readStringParam (params : Params) (key : String) (required trim : Bool) :
    Except String (Option String) :=
  match params.lookup key with
  | some (JsonValue.vStr raw) =>
      let value := if trim then jsTrim raw else raw
      if value = "" then
        if required then Except.error (key ++ " required") else Except.ok none
      else Except.ok (some value)
  | _ => if required then Except.error (key ++ " required") else Except.ok none

/-- readStringParam with the defaults used at optional call sites
(required = false, trim = true); this mode never throws, so the wrapper
returns the plain option. -/
def readStringOpt (params : Params) (key : String) : Option String :=
  match readStringParam params key false true with
  | Except.ok v => v
  | Except.error _ => none

/-- parseFloat of a trimmed string, modelled on decimal integer literals
(the tools only pass numeric limits/offsets through it; no claim depends
on fractional or NaN behaviour). -/
def parseNumber (s : String) : Option Int :=
  (jsTrim s).toInt?

/-- Transcribes readNumberParam (runtime.ts tools section, lines 80-98):
a finite number is taken as is, a string is parsed with parseFloat; with
`required = true` a missing value throws.  Numbers are modelled as Int. -/
def readNumberParam (params : Params) (key : String) (required : Bool) :
    Except String (Option Int) :=
  match params.lookup key with
  | some (JsonValue.vNum n) => Except.ok (some n)
  | some (JsonValue.vStr s) =>
      match parseNumber s with
      | some n => Except.ok (some n)
      | none => if required then Except.error (key ++ " required") else Except.ok none
  | _ => if required then Except.error (key ++ " required") else Except.ok none

/-- readNumberParam at its only call sites (required = false); never throws. -/
def readNumberOpt (params : Params) (key : String) : Option Int :=
  match readNumberParam params key false with
  | Except.ok v => v
  | Except.error _ => none

/-- Transcribes readStringArrayParam (runtime.ts tools section, lines
100-116): an array keeps its string entries, trimmed, dropping empties;
a single string becomes a singleton unless empty after trimming. -/
def readStringArrayParam (params : Params) (key : String) : Option (List String) :=
  match params.lookup key with
  | some (JsonValue.vArr xs) =>
      some (xs.filterMap (fun v =>
        match v with
        | JsonValue.vStr s => if jsTrim s = "" then none else some (jsTrim s)
        | _ => none))
  | some (JsonValue.vStr s) =>
      if jsTrim s = "" then none else some [jsTrim s]
  | _ => none

/-- MemoryStats (runtime.ts service section): total entries,
per-namespace counts, optional oldest/newest timestamps (epoch ints). -/
structure MemoryStats where
  totalEntries : Int
  byNamespace : List (String × Int)
  oldestEntry : Option Int
  newestEntry : Option Int
deriving DecidableEq

/-- SearchOptions as passed to bridge.search: limit defaulted to 5 at the
call site, optional namespace and threshold, includeMetadata flag.
(`nspace` stands for the TS field `namespace`, a Lean keyword.) -/
structure SearchOptions where
  limit : Int
  nspace : Option String
  threshold : Option Int
  includeMetadata : Bool
deriving DecidableEq

/-- ListOptions as passed to bridge.list: limit defaulted to 100,
offset defaulted to 0 at the call site. -/
structure ListOptions where
  nspace : Option String
  limit : Int
  offset : Int
deriving DecidableEq

/-- SearchResult rows returned by the backend search. -/
structure SearchResult where
  key : String
  content : String
  score : Int
  nspace : Option String
  metadata : Option (List (String × JsonValue))

/-- Behaviour of a connected backend handle (MemoryPlugin) for one
invocation: each operation either returns a value or throws a message. -/
structure BackendBehavior where
  writeR : String → String → Option String → Option (List String) → Except String Unit
  readR : String → Except String (Option String)
  searchR : String → SearchOptions → Except String (List SearchResult)
  listR : ListOptions → Except String (List String)
  deleteR : String → Except String Bool
  statsR : Except String MemoryStats

/-- Trace entry: one call made on the backend handle. -/
inductive BackendCall where
  | write : String → String → Option String → Option (List String) → BackendCall
  | read : String → BackendCall
  | search : String → SearchOptions → BackendCall
  | list : ListOptions → BackendCall
  | delete : String → BackendCall
  | stats : BackendCall
  | connect : BackendCall
  | disconnect : BackendCall

/-- Outcome of one tool execute call: the returned payload (Except.ok, the
value given to jsonResult) or an escaped exception (Except.error), plus
the trace of backend calls made during the invocation. -/
structure ExecOut where
  result : Except String JsonValue
  calls : List BackendCall

/-- The fixed message every tool returns while no handle is held. -/
def notConnectedMsg : String := "Memory bridge not connected"

/-- Store failure payload `{success:false, error}` (also the store/delete
not-connected payload). -/
def storeFailure (msg : String) : JsonValue :=
  JsonValue.vObj [("success", JsonValue.vBool false), ("error", JsonValue.vStr msg)]

/-- Search failure payload `{results:[], error}`. -/
def searchFailure (msg : String) : JsonValue :=
  JsonValue.vObj [("results", JsonValue.vArr []), ("error", JsonValue.vStr msg)]

/-- Read failure payload `{key, found:false, error}`. -/
def readFailure (key msg : String) : JsonValue :=
  JsonValue.vObj [("key", JsonValue.vStr key), ("found", JsonValue.vBool false),
    ("error", JsonValue.vStr msg)]

/-- Delete failure payload `{success:false, key, error}`. -/
def deleteFailure (key msg : String) : JsonValue :=
  JsonValue.vObj [("success", JsonValue.vBool false), ("key", JsonValue.vStr key),
    ("error", JsonValue.vStr msg)]

/-- List failure payload `{keys:[], error}`. -/
def listFailure (msg : String) : JsonValue :=
  JsonValue.vObj [("keys", JsonValue.vArr []), ("error", JsonValue.vStr msg)]

/-- Bare error payload `{error}` (read/stats not-connected, stats failure). -/
def bareError (msg : String) : JsonValue :=
  JsonValue.vObj [("error", JsonValue.vStr msg)]

/-- Search options as built at the bridge.search call site
(runtime.ts tools section, lines 218-223): `{limit: limit ?? 5,
namespace, threshold, includeMetadata}`. -/
def searchOptsOf (params : Params) : SearchOptions :=
  { limit := (readNumberOpt params "limit").getD 5
    nspace := readStringOpt params "namespace"
    threshold := readNumberOpt params "threshold"
    includeMetadata :=
      match params.lookup "includeMetadata" with
      | some (JsonValue.vBool true) => true
      | _ => false }

/-- List options as built at the bridge.list call site (runtime.ts tools
section, lines 312-316): `{namespace, limit: limit ?? 100, offset: offset ?? 0}`. -/
def listOptsOf (params : Params) : ListOptions :=
  { nspace := readStringOpt params "namespace"
    limit := (readNumberOpt params "limit").getD 100
    offset := (readNumberOpt params "offset").getD 0 }

/-- One row of the search success payload: key, content, score, namespace,
and metadata only when the caller asked for it and the row has some
(runtime.ts tools section, lines 225-231). -/
def searchResultJson (includeMetadata : Bool) (r : SearchResult) : JsonValue :=
  JsonValue.vObj ([("key", JsonValue.vStr r.key), ("content", JsonValue.vStr r.content),
    ("score", JsonValue.vNum r.score),
    ("namespace", match r.nspace with
      | some s => JsonValue.vStr s
      | none => JsonValue.vNull)] ++
    (if includeMetadata then
      match r.metadata with
      | some m => [("metadata", JsonValue.vObj m)]
      | none => []
    else []))

/-- Stats payload as serialized by jsonResult(stats). -/
def statsJson (s : MemoryStats) : JsonValue :=
  JsonValue.vObj ([("totalEntries", JsonValue.vNum s.totalEntries),
    ("byNamespace", JsonValue.vObj (s.byNamespace.map
      (fun p => (p.1, JsonValue.vNum p.2))))] ++
    (match s.oldestEntry with
      | some t => [("oldestEntry", JsonValue.vNum t)]
      | none => []) ++
    (match s.newestEntry with
      | some t => [("newestEntry", JsonValue.vNum t)]
      | none => []))

/-- memory_store execute (runtime.ts tools section, lines 173-194).
The not-connected guard precedes everything; the required reads of key
and content sit OUTSIDE the try block, so their throws escape; the
try/catch wraps only the bridge.write call.  The `.getD ""` defaults are
unreachable: a required read never returns `Except.ok none`. -/
def memoryStoreExec (bridge : Option BackendBehavior) (params : Params) : ExecOut :=
  match bridge with
  | none => ⟨Except.ok (storeFailure notConnectedMsg), []⟩
  | some b =>
    match readStringParam params "key" true true,
          readStringParam params "content" true true with
    | Except.error e, _ => ⟨Except.error e, []⟩
    | _, Except.error e => ⟨Except.error e, []⟩
    | Except.ok okey, Except.ok ocontent =>
      match b.writeR (okey.getD "") (ocontent.getD "")
          (readStringOpt params "namespace") (readStringArrayParam params "tags") with
      | Except.ok _ =>
          ⟨Except.ok (JsonValue.vObj [("success", JsonValue.vBool true),
            ("key", JsonValue.vStr (okey.getD "")),
            ("namespace", JsonValue.vStr ((readStringOpt params "namespace").getD "default"))]),
           [BackendCall.write (okey.getD "") (ocontent.getD "")
             (readStringOpt params "namespace") (readStringArrayParam params "tags")]⟩
      | Except.error msg =>
          ⟨Except.ok (storeFailure msg),
           [BackendCall.write (okey.getD "") (ocontent.getD "")
             (readStringOpt params "namespace") (readStringArrayParam params "tags")]⟩

/-- memory_search_enterprise execute (runtime.ts tools section, lines
205-238): not-connected guard, required query read outside the try,
backend search inside with failures mapped to `{results:[], error}`. -/
def memorySearchExec (bridge : Option BackendBehavior) (params : Params) : ExecOut :=
  match bridge with
  | none => ⟨Except.ok (searchFailure notConnectedMsg), []⟩
  | some b =>
    match readStringParam params "query" true true with
    | Except.error e => ⟨Except.error e, []⟩
    | Except.ok oquery =>
      match b.searchR (oquery.getD "") (searchOptsOf params) with
      | Except.ok results =>
          ⟨Except.ok (JsonValue.vObj [("results", JsonValue.vArr
              (results.map (searchResultJson (searchOptsOf params).includeMetadata))),
            ("count", JsonValue.vNum results.length)]),
           [BackendCall.search (oquery.getD "") (searchOptsOf params)]⟩
      | Except.error msg =>
          ⟨Except.ok (searchFailure msg),
           [BackendCall.search (oquery.getD "") (searchOptsOf params)]⟩

/-- memory_read execute (runtime.ts tools section, lines 248-265): only
the key is read from params and only the key is passed to bridge.read;
a null content maps to `{key, found:false, error:"Memory not found"}`. -/
def memoryReadExec (bridge : Option BackendBehavior) (params : Params) : ExecOut :=
  match bridge with
  | none => ⟨Except.ok (bareError notConnectedMsg), []⟩
  | some b =>
    match readStringParam params "key" true true with
    | Except.error e => ⟨Except.error e, []⟩
    | Except.ok okey =>
      match b.readR (okey.getD "") with
      | Except.ok none =>
          ⟨Except.ok (readFailure (okey.getD "") "Memory not found"),
           [BackendCall.read (okey.getD "")]⟩
      | Except.ok (some content) =>
          ⟨Except.ok (JsonValue.vObj [("key", JsonValue.vStr (okey.getD "")),
            ("found", JsonValue.vBool true), ("content", JsonValue.vStr content)]),
           [BackendCall.read (okey.getD "")]⟩
      | Except.error msg =>
          ⟨Except.ok (readFailure (okey.getD "") msg),
           [BackendCall.read (okey.getD "")]⟩

/-- memory_delete execute (runtime.ts tools section, lines 276-291): only
the key is read and only the key is passed to bridge.delete. -/
def memoryDeleteExec (bridge : Option BackendBehavior) (params : Params) : ExecOut :=
  match bridge with
  | none => ⟨Except.ok (storeFailure notConnectedMsg), []⟩
  | some b =>
    match readStringParam params "key" true true with
    | Except.error e => ⟨Except.error e, []⟩
    | Except.ok okey =>
      match b.deleteR (okey.getD "") with
      | Except.ok deleted =>
          ⟨Except.ok (JsonValue.vObj [("success", JsonValue.vBool deleted),
            ("key", JsonValue.vStr (okey.getD ""))]),
           [BackendCall.delete (okey.getD "")]⟩
      | Except.error msg =>
          ⟨Except.ok (deleteFailure (okey.getD "") msg),
           [BackendCall.delete (okey.getD "")]⟩

/-- memory_list execute (runtime.ts tools section, lines 301-322): all
params optional (no validation throw possible); failures map to
`{keys:[], error}`. -/
def memoryListExec (bridge : Option BackendBehavior) (params : Params) : ExecOut :=
  match bridge with
  | none => ⟨Except.ok (listFailure notConnectedMsg), []⟩
  | some b =>
    match b.listR (listOptsOf params) with
    | Except.ok keys =>
        ⟨Except.ok (JsonValue.vObj [("keys", JsonValue.vArr (keys.map JsonValue.vStr)),
          ("count", JsonValue.vNum keys.length)]),
         [BackendCall.list (listOptsOf params)]⟩
    | Except.error msg =>
        ⟨Except.ok (listFailure msg), [BackendCall.list (listOptsOf params)]⟩

/-- memory_stats execute (runtime.ts tools section, lines 332-345): takes
no parameters; failures map to `{error}`. -/
def memoryStatsExec (bridge : Option BackendBehavior) : ExecOut :=
  match bridge with
  | none => ⟨Except.ok (bareError notConnectedMsg), []⟩
  | some b =>
    match b.statsR with
    | Except.ok s => ⟨Except.ok (statsJson s), [BackendCall.stats]⟩
    | Except.error msg => ⟨Except.ok (bareError msg), [BackendCall.stats]⟩

/-- ALLOWED_SCHEMAS (config.ts plugin variant, lines 220-228): the fixed
namespace allow-list. -/
def ALLOWED_SCHEMAS : List String :=
  ["internal", "shared_patterns", "client_arete_health", "client_deccan_intl",
   "client_igoe_company", "client_cafemoto", "client_plenums_plus"]

/-- validateSchema (config.ts plugin variant, lines 231-237): lowercases
then trims the incoming name and checks the allow-list; a miss throws
`` `Invalid schema: ${schema}` ``, modelled as Except.error. -/
def validateSchema (schema : String) : Except String String :=
  let normalized := jsTrim (jsToLower schema)
  if ALLOWED_SCHEMAS.contains normalized then Except.ok normalized
  else Except.error ("Invalid schema: " ++ schema)

/-- Result shape of the config.ts plugin variant tools: a text content
block plus the isError flag. -/
structure CfgToolResult where
  text : String
  isError : Bool
deriving DecidableEq

/-- Single-quote character as a string (used in the stored-confirmation
text of the config.ts store tool). -/
def sq : String := String.singleton (Char.ofNat 39)

/-- memory_store execute of the config.ts plugin variant (lines 283-306):
validates the namespace (defaulted from config) before doing anything
else; a validation throw is caught and returned as an isError text
result.  The function takes no connection state and calls no backend,
so the check is independent of both. -/
def cfgMemoryStoreExec (defaultNS key _value : String) (nsParam : Option String) :
    CfgToolResult :=
  match validateSchema (nsParam.getD defaultNS) with
  | Except.ok schema => ⟨"Stored " ++ sq ++ key ++ sq ++ " in " ++ schema, false⟩
  | Except.error msg => ⟨"Error: " ++ msg, true⟩

/-- Backend factory: createMemoryBridge, an async constructor taking the
built bridge configuration and either connecting (returning a handle
behaviour) or throwing. -/
structure BridgeConfig where
  postgresHost : String
  postgresPort : Int
  database : String
  userId : String
deriving DecidableEq

/-- A resolved factory: calling it with the built configuration either
yields a connected backend behaviour or throws a message. -/
abbrev Factory := BridgeConfig → Except String BackendBehavior

/-- Plugin configuration fields consumed by MemoryBridgeService.start
(index.ts MemoryBridgePluginConfig; only host/port/database feed the
bridge configuration). -/
structure PluginConfig where
  host : Option String
  port : Option Int
  database : Option String

/-- Environment variables read by MemoryBridgeService.start. -/
structure EnvVars where
  pgHost : Option String
  pgPort : Option String
  database : Option String
  claudeFlowUser : Option String
  user : Option String

/-- JavaScript `a || b` on an optional string: an absent or empty string
falls through to the default. -/
def tsOrS (a : Option String) (b : String) : String :=
  match a with
  | some s => if s = "" then b else s
  | none => b

/-- JavaScript `a || b` on an optional number: absent or zero falls
through to the default. -/
def tsOrN (a : Option Int) (b : Int) : Int :=
  match a with
  | some n => if n = 0 then b else n
  | none => b

/-- parseInt as applied to the port environment string, modelled on
decimal literals (a non-numeric string yields NaN in JS; no claim
depends on that case, modelled as 0 here). -/
def parseIntTS (s : String) : Int :=
  (s.toInt?).getD 0

/-- bridgeConfig construction (runtime.ts service section, lines
480-485): explicit config over environment values over hard-coded
fallbacks, using JavaScript truthiness at each `||`. -/
def buildBridgeConfig (cfg : PluginConfig) (env : EnvVars) : BridgeConfig :=
  { postgresHost := tsOrS cfg.host (tsOrS env.pgHost "vm-claude-flow-prod")
    postgresPort := tsOrN cfg.port (parseIntTS (tsOrS env.pgPort "5432"))
    database := tsOrS cfg.database (tsOrS env.database "claude_flow_msp")
    userId := tsOrS env.claudeFlowUser (tsOrS env.user "unknown") }

/-- Outcome of dynamically importing one candidate path: the import
throws, or the module loads without a createMemoryBridge export, or it
exposes a usable factory. -/
inductive CandidateOutcome where
  | loadError : CandidateOutcome
  | noExport : CandidateOutcome
  | factory : Factory → CandidateOutcome

/-- Whether a candidate fails to yield a usable factory. -/
def isBroken : CandidateOutcome → Bool
  | CandidateOutcome.factory _ => false
  | _ => true

/-- The for-loop over importPaths (runtime.ts service section, lines
558-568): returns the first usable factory together with how many
candidates were attempted; a load error or a missing export is skipped
silently. -/
def resolveLoop : List CandidateOutcome → Option Factory × Nat
  | [] => (none, 0)
  | c :: rest =>
    match c with
    | CandidateOutcome.factory f => (some f, 1)
    | _ =>
      let p := resolveLoop rest
      (p.1, p.2 + 1)

/-- Result of importMemoryBridge: the factory (or none), the number of
candidate imports attempted, and whether the hard-coded direct
PostgresMemoryPlugin construction fallback was tried. -/
structure ResolveOut where
  result : Option Factory
  attempts : Nat
  fallbackTried : Bool

/-- importMemoryBridge (runtime.ts service section, lines 550-596): scan
the candidate list; only when every candidate failed, try the direct
PostgresMemoryPlugin construction (`direct`, none when that import
throws); on total failure return null rather than throwing. -/
def importMemoryBridge (cands : List CandidateOutcome) (direct : Option Factory) :
    ResolveOut :=
  match resolveLoop cands with
  | (some f, n) => ⟨some f, n, false⟩
  | (none, n) => ⟨direct, n, true⟩

/-- Module-level mutable state of the service (runtime.ts service
section, lines 425-428), plus the instance field refreshInterval. -/
structure ModuleState where
  memoryBridge : Option BackendBehavior
  isConnected : Bool
  lastError : Option String
  cachedStats : Option MemoryStats
  refreshInterval : Bool

/-- The state at process start: all module variables null/false. -/
def initialState : ModuleState :=
  ⟨none, false, none, none, false⟩

/-- getMemoryBridgeStatus (runtime.ts service section, lines 440-450):
pure read of the module state. -/
structure Status where
  connected : Bool
  stats : Option MemoryStats
  error : Option String
deriving DecidableEq

/-- Pure status read model. -/
def getMemoryBridgeStatus (st : ModuleState) : Status :=
  ⟨st.isConnected, st.cachedStats, st.lastError⟩

/-- The message thrown when importMemoryBridge returns null
(runtime.ts service section, line 474). -/
def loadFailureMessage : String := "Failed to load @novusflow/memory-bridge module"

/-- MemoryBridgeService.start (runtime.ts service section, lines
466-522): resolve, build the bridge configuration, connect; on success
store the handle, set connected, clear the error, fetch initial stats
inside its own try (a failure there only logs), and schedule the
refresh.  Every throw is caught by the outer catch, which records the
message and clears the connected flag without touching anything else —
start never raises. -/
def startStep (st : ModuleState) (cfg : PluginConfig) (env : EnvVars)
    (cands : List CandidateOutcome) (direct : Option Factory)
    (firstStats : Except String MemoryStats) : ModuleState :=
  match (importMemoryBridge cands direct).result with
  | none =>
      { st with lastError := some loadFailureMessage, isConnected := false }
  | some factory =>
    match factory (buildBridgeConfig cfg env) with
    | Except.error msg => { st with lastError := some msg, isConnected := false }
    | Except.ok handle =>
      let stConn : ModuleState :=
        { st with memoryBridge := some handle, isConnected := true, lastError := none }
      let stStats : ModuleState :=
        match firstStats with
        | Except.ok s => { stConn with cachedStats := some s }
        | Except.error _ => stConn
      { stStats with refreshInterval := true }

/-- MemoryBridgeService.stop (runtime.ts service section, lines 524-545):
clear the interval when one is scheduled, attempt disconnect when a
handle is held and connected (the outcome `dis` is caught and only
logged), then unconditionally null out handle, connected flag, cached
stats and last error. -/
def stopStep (st : ModuleState) (dis : Except String Unit) : ModuleState :=
  let st1 := if st.refreshInterval then { st with refreshInterval := false } else st
  let _caught := if st1.memoryBridge.isSome && st1.isConnected then dis else Except.ok ()
  { st1 with memoryBridge := none, isConnected := false,
             cachedStats := none, lastError := none }

/-- One refresh tick (runtime.ts service section, lines 503-511): when a
handle is held and connected, fetch stats and replace the cached
snapshot wholesale; any throw is swallowed with no state change. -/
def tickStep (st : ModuleState) (statsOutcome : Except String MemoryStats) : ModuleState :=
  if st.memoryBridge.isSome && st.isConnected then
    match statsOutcome with
    | Except.ok s => { st with cachedStats := some s }
    | Except.error _ => st
  else st

/-- A lifecycle event together with the environment outcomes it observes. -/
inductive Event where
  | start : PluginConfig → EnvVars → List CandidateOutcome → Option Factory →
      Except String MemoryStats → Event
  | stop : Except String Unit → Event
  | tick : Except String MemoryStats → Event

/-- Step of the lifecycle machine. -/
def step (st : ModuleState) : Event → ModuleState
  | Event.start cfg env cands direct firstStats =>
      startStep st cfg env cands direct firstStats
  | Event.stop d => stopStep st d
  | Event.tick o => tickStep st o

/-- State after running a sequence of lifecycle events from process start. -/
def run (es : List Event) : ModuleState :=
  es.foldl step initialState

/-- Well-formedness of one event from a state: start is only invoked while
no handle is held (the host lifecycle never double-starts the service). -/
def stepOk (st : ModuleState) : Event → Bool
  | Event.start _ _ _ _ _ => st.memoryBridge.isNone
  | _ => true

/-- Well-formedness of an event sequence from a state. -/
def runOk : ModuleState → List Event → Bool
  | _, [] => true
  | st, e :: es => stepOk st e && runOk (step st e) es

/-- Tool dispatch at the state level: an execute body reads the shared
handle via getMemoryBridge() and performs no assignment to any module
variable, so the state after the call is the state before it. -/
def toolInvoke (st : ModuleState)
    (exec : Option BackendBehavior → Params → ExecOut) (params : Params) :
    ExecOut × ModuleState :=
  (exec st.memoryBridge params, st)

/-- memory_stats dispatch at the state level (its execute takes no params). -/
def toolInvokeStats (st : ModuleState) : ExecOut × ModuleState :=
  (memoryStatsExec st.memoryBridge, st)

/-- A backend whose operations all succeed with inert defaults; used as a
concrete handle in witnesses and counterexamples. -/
def trivialBackend : BackendBehavior :=
  { writeR := fun _ _ _ _ => Except.ok ()
    readR := fun _ => Except.ok none
    searchR := fun _ _ => Except.ok []
    listR := fun _ => Except.ok []
    deleteR := fun _ => Except.ok true
    statsR := Except.ok ⟨0, [], none, none⟩ }

/-- A backend whose every operation throws "boom"; used in witnesses. -/
def throwingBackend : BackendBehavior :=
  { writeR := fun _ _ _ _ => Except.error "boom"
    readR := fun _ => Except.error "boom"
    searchR := fun _ _ => Except.error "boom"
    listR := fun _ => Except.error "boom"
    deleteR := fun _ => Except.error "boom"
    statsR := Except.error "boom" }

/-- A factory that connects successfully to the trivial backend. -/
def okFactory : Factory := fun _ => Except.ok trivialBackend

/-- An empty plugin configuration (all fields absent). -/
def cfgNone : PluginConfig := ⟨none, none, none⟩

/-- An empty environment (no variables set). -/
def envNone : EnvVars := ⟨none, none, none, none, none⟩

/-- A factory whose connect routine throws. -/
def failFactory : Factory := fun _ => Except.error "connect refused"

/-- The error field of an object payload. -/
def errorField : JsonValue → Option JsonValue
  | JsonValue.vObj fs => fs.lookup "error"
  | _ => none

/-- A connected state holding the all-throwing backend. -/
def stThrow : ModuleState := ⟨some throwingBackend, true, none, none, true⟩

/-- Concrete well-typed parameters supplying key, content and query. -/
def paramsKCQ : Params :=
  [("key", JsonValue.vStr "k"), ("content", JsonValue.vStr "c"),
   ("query", JsonValue.vStr "q")]

/-! Helper lemmas shared by the claim theorems. -/

/-- A refresh tick never changes the held handle. -/
lemma tickStep_memoryBridge (st : ModuleState) (o : Except String MemoryStats) :
    (tickStep st o).memoryBridge = st.memoryBridge := by
  unfold tickStep
  split
  · cases o <;> rfl
  · rfl

/-- A refresh tick never changes the connected flag. -/
lemma tickStep_isConnected (st : ModuleState) (o : Except String MemoryStats) :
    (tickStep st o).isConnected = st.isConnected := by
  unfold tickStep
  split
  · cases o <;> rfl
  · rfl

/-- A refresh tick never changes the last error. -/
lemma tickStep_lastError (st : ModuleState) (o : Except String MemoryStats) :
    (tickStep st o).lastError = st.lastError := by
  unfold tickStep
  split
  · cases o <;> rfl
  · rfl

/-- A refresh tick never changes the refresh schedule. -/
lemma tickStep_refreshInterval (st : ModuleState) (o : Except String MemoryStats) :
    (tickStep st o).refreshInterval = st.refreshInterval := by
  unfold tickStep
  split
  · cases o <;> rfl
  · rfl

/-! Claim theorems. -/

/-- Claim C2: invoking any of the six memory tools while no backend
handle is held returns (never throws) the structured failure payload
carrying the fixed "Memory bridge not connected" message, and the
backend call trace is empty — no backend call and no reconnect attempt
is made, for every parameter set. -/
theorem disconnected_ops_structured_failure (params : Params) :
    memoryStoreExec none params = ⟨Except.ok (storeFailure notConnectedMsg), []⟩ ∧
    memorySearchExec none params = ⟨Except.ok (searchFailure notConnectedMsg), []⟩ ∧
    memoryReadExec none params = ⟨Except.ok (bareError notConnectedMsg), []⟩ ∧
    memoryDeleteExec none params = ⟨Except.ok (storeFailure notConnectedMsg), []⟩ ∧
    memoryListExec none params = ⟨Except.ok (listFailure notConnectedMsg), []⟩ ∧
    memoryStatsExec none = ⟨Except.ok (bareError notConnectedMsg), []⟩ ∧
    errorField (storeFailure notConnectedMsg) = some (JsonValue.vStr notConnectedMsg) ∧
    errorField (searchFailure notConnectedMsg) = some (JsonValue.vStr notConnectedMsg) ∧
    errorField (listFailure notConnectedMsg) = some (JsonValue.vStr notConnectedMsg) ∧
    errorField (bareError notConnectedMsg) = some (JsonValue.vStr notConnectedMsg) :=
  ⟨rfl, rfl, rfl, rfl, rfl, rfl, rfl, rfl, rfl, rfl⟩

/-- Claim C7: stop() is total and idempotent — from any state and for
any disconnect outcome it produces the fully cleared disconnected state
(handle, connected flag, cached stats and last error all cleared), so a
second stop, or a stop without a prior start, is a no-op. -/
theorem stop_idempotent_clears_state (st : ModuleState) (d d2 : Except String Unit) :
    stopStep st d = ⟨none, false, none, none, false⟩ ∧
    stopStep (stopStep st d) d2 = stopStep st d ∧
    stopStep initialState d = initialState := by
  rcases st with ⟨mb, ic, le, cs, ri⟩
  cases ri <;> exact ⟨rfl, rfl, rfl⟩

/-- Claim C8: a refresh tick whose stats fetch throws leaves the whole
state unchanged; no tick ever changes the handle, connected flag, last
error or schedule; and a tick can only change the cached snapshot by
replacing it wholesale with the result of a successful stats call. -/
theorem refresh_failure_frame :
    (∀ (st : ModuleState) (msg : String), tickStep st (Except.error msg) = st) ∧
    (∀ (st : ModuleState) (o : Except String MemoryStats),
      (tickStep st o).memoryBridge = st.memoryBridge ∧
      (tickStep st o).isConnected = st.isConnected ∧
      (tickStep st o).lastError = st.lastError ∧
      (tickStep st o).refreshInterval = st.refreshInterval) ∧
    (∀ (st : ModuleState) (o : Except String MemoryStats),
      (tickStep st o).cachedStats ≠ st.cachedStats →
      ∃ s, o = Except.ok s ∧ (tickStep st o).cachedStats = some s) := by
  refine ⟨?_, ?_, ?_⟩
  · intro st msg
    unfold tickStep
    split <;> rfl
  · intro st o
    exact ⟨tickStep_memoryBridge st o, tickStep_isConnected st o,
      tickStep_lastError st o, tickStep_refreshInterval st o⟩
  · intro st o h
    cases o with
    | error msg =>
        exfalso
        apply h
        unfold tickStep
        split <;> rfl
    | ok s =>
        refine ⟨s, rfl, ?_⟩
        unfold tickStep at h ⊢
        by_cases hg : (st.memoryBridge.isSome && st.isConnected) = true
        · simp only [hg, if_true]
        · simp only [hg, if_false] at h
          exact absurd rfl h

/-- Witness for C8 at a concrete connected state and successful tick. -/
theorem refresh_failure_frame_witness :
    ∃ s, (Except.ok ⟨7, [("internal", 7)], none, none⟩ :
            Except String MemoryStats) = Except.ok s ∧
      (tickStep ⟨some trivialBackend, true, none, none, true⟩
        (Except.ok ⟨7, [("internal", 7)], none, none⟩)).cachedStats = some s :=
  refresh_failure_frame.2.2 ⟨some trivialBackend, true, none, none, true⟩
    (Except.ok ⟨7, [("internal", 7)], none, none⟩)
    (fun h => Option.noConfusion h)

/-- Claim C1: start() is a total function of the configuration and the
resolution/connect outcomes (it never raises), and whenever resolution
returns no factory — including when every import candidate fails — or
the factory's connect routine throws, the resulting state records the
error message in the status cache, has connected false, and still holds
no handle. -/
theorem start_degrades_on_failure (st : ModuleState) (cfg : PluginConfig)
    (env : EnvVars) (cands : List CandidateOutcome) (direct : Option Factory)
    (firstStats : Except String MemoryStats) (h : st.memoryBridge = none) :
    ((importMemoryBridge cands direct).result = none →
      (startStep st cfg env cands direct firstStats).memoryBridge = none ∧
      (getMemoryBridgeStatus (startStep st cfg env cands direct firstStats)).connected
        = false ∧
      (getMemoryBridgeStatus (startStep st cfg env cands direct firstStats)).error
        = some loadFailureMessage) ∧
    (∀ (f : Factory) (msg : String),
      (importMemoryBridge cands direct).result = some f →
      f (buildBridgeConfig cfg env) = Except.error msg →
      (startStep st cfg env cands direct firstStats).memoryBridge = none ∧
      (getMemoryBridgeStatus (startStep st cfg env cands direct firstStats)).connected
        = false ∧
      (getMemoryBridgeStatus (startStep st cfg env cands direct firstStats)).error
        = some msg) := by
  constructor
  · intro him
    unfold startStep
    rw [him]
    exact ⟨h, rfl, rfl⟩
  · intro f msg him hf
    unfold startStep
    simp only [him]
    rw [hf]
    exact ⟨h, rfl, rfl⟩

/-- Witness for C1: a start in which the single candidate fails to load,
and one in which resolution succeeds but the connect routine throws. -/
theorem start_degrades_on_failure_witness :
    ((startStep initialState cfgNone envNone [CandidateOutcome.loadError] none
        (Except.error "x")).memoryBridge = none ∧
      (getMemoryBridgeStatus (startStep initialState cfgNone envNone
        [CandidateOutcome.loadError] none (Except.error "x"))).connected = false ∧
      (getMemoryBridgeStatus (startStep initialState cfgNone envNone
        [CandidateOutcome.loadError] none (Except.error "x"))).error
        = some loadFailureMessage) ∧
    ((startStep initialState cfgNone envNone [CandidateOutcome.factory failFactory]
        none (Except.error "x")).memoryBridge = none ∧
      (getMemoryBridgeStatus (startStep initialState cfgNone envNone
        [CandidateOutcome.factory failFactory] none (Except.error "x"))).connected
        = false ∧
      (getMemoryBridgeStatus (startStep initialState cfgNone envNone
        [CandidateOutcome.factory failFactory] none (Except.error "x"))).error
        = some "connect refused") :=
  ⟨(start_degrades_on_failure initialState cfgNone envNone
      [CandidateOutcome.loadError] none (Except.error "x") rfl).1 rfl,
   (start_degrades_on_failure initialState cfgNone envNone
      [CandidateOutcome.factory failFactory] none (Except.error "x") rfl).2
      failFactory "connect refused" rfl rfl⟩

/-- When every candidate before the factory is broken, the loop stops at
the factory having attempted exactly the broken prefix plus one. -/
lemma resolveLoop_skips (pre post : List CandidateOutcome) (f : Factory)
    (h : ∀ c ∈ pre, isBroken c = true) :
    resolveLoop (pre ++ CandidateOutcome.factory f :: post) = (some f, pre.length + 1) := by
  induction pre with
  | nil => rfl
  | cons c rest ih =>
    have hc : isBroken c = true := h c (List.mem_cons_self c rest)
    have hrest : ∀ x ∈ rest, isBroken x = true :=
      fun x hx => h x (List.mem_cons_of_mem c hx)
    cases c with
    | factory g => simp [isBroken] at hc
    | loadError => simp [resolveLoop, ih hrest]
    | noExport => simp [resolveLoop, ih hrest]

/-- When every candidate is broken the loop attempts all of them and
yields no factory. -/
lemma resolveLoop_all_broken (cands : List CandidateOutcome)
    (h : ∀ c ∈ cands, isBroken c = true) :
    resolveLoop cands = (none, cands.length) := by
  induction cands with
  | nil => rfl
  | cons c rest ih =>
    have hc : isBroken c = true := h c (List.mem_cons_self c rest)
    have hrest : ∀ x ∈ rest, isBroken x = true :=
      fun x hx => h x (List.mem_cons_of_mem c hx)
    cases c with
    | factory g => simp [isBroken] at hc
    | loadError => simp [resolveLoop, ih hrest]
    | noExport => simp [resolveLoop, ih hrest]

/-- When the loop found no factory, every candidate was broken. -/
lemma resolveLoop_none_broken :
    ∀ (cands : List CandidateOutcome) (n : Nat), resolveLoop cands = (none, n) →
      ∀ c ∈ cands, isBroken c = true := by
  intro cands
  induction cands with
  | nil =>
      intro n _ c hc
      cases hc
  | cons c rest ih =>
      intro n hres x hx
      cases c with
      | factory g => simp [resolveLoop] at hres
      | loadError =>
          rw [List.mem_cons] at hx
          rcases hx with rfl | hx
          · rfl
          · have heq : resolveLoop (CandidateOutcome.loadError :: rest) =
                ((resolveLoop rest).1, (resolveLoop rest).2 + 1) := rfl
            rw [heq] at hres
            have h1 : (resolveLoop rest).1 = none := congrArg Prod.fst hres
            have h2 : resolveLoop rest = (none, (resolveLoop rest).2) := by
              rw [← h1]
            exact ih (resolveLoop rest).2 h2 x hx
      | noExport =>
          rw [List.mem_cons] at hx
          rcases hx with rfl | hx
          · rfl
          · have heq : resolveLoop (CandidateOutcome.noExport :: rest) =
                ((resolveLoop rest).1, (resolveLoop rest).2 + 1) := rfl
            rw [heq] at hres
            have h1 : (resolveLoop rest).1 = none := congrArg Prod.fst hres
            have h2 : resolveLoop rest = (none, (resolveLoop rest).2) := by
              rw [← h1]
            exact ih (resolveLoop rest).2 h2 x hx

/-- Claim C6: when the first N candidates are broken and candidate N+1
exposes a usable factory, resolution returns exactly that factory after
attempting exactly N+1 candidates and without trying the direct
fallback; when every candidate is broken, the direct fallback decides
the outcome, which is a plain value (none on total failure) rather than
a throw; and the fallback is only ever tried after every listed
candidate has failed. -/
theorem resolver_first_success_wins :
    (∀ (pre post : List CandidateOutcome) (f : Factory) (direct : Option Factory),
      (∀ c ∈ pre, isBroken c = true) →
      importMemoryBridge (pre ++ CandidateOutcome.factory f :: post) direct =
        ⟨some f, pre.length + 1, false⟩) ∧
    (∀ (cands : List CandidateOutcome) (direct : Option Factory),
      (∀ c ∈ cands, isBroken c = true) →
      importMemoryBridge cands direct = ⟨direct, cands.length, true⟩) ∧
    (∀ (cands : List CandidateOutcome) (direct : Option Factory),
      (importMemoryBridge cands direct).fallbackTried = true →
      ∀ c ∈ cands, isBroken c = true) := by
  refine ⟨?_, ?_, ?_⟩
  · intro pre post f direct h
    unfold importMemoryBridge
    rw [resolveLoop_skips pre post f h]
  · intro cands direct h
    unfold importMemoryBridge
    rw [resolveLoop_all_broken cands h]
  · intro cands direct h
    unfold importMemoryBridge at h
    rcases hres : resolveLoop cands with ⟨r, n⟩
    rw [hres] at h
    cases r with
    | some f => simp at h
    | none => exact resolveLoop_none_broken cands n hres

/-- Witness for C6: a broken candidate, then the working factory, then a
never-attempted candidate; and a fully broken list falling back. -/
theorem resolver_first_success_wins_witness :
    importMemoryBridge [CandidateOutcome.loadError, CandidateOutcome.factory okFactory,
        CandidateOutcome.noExport] none = ⟨some okFactory, 2, false⟩ ∧
    importMemoryBridge [CandidateOutcome.loadError] none = ⟨none, 1, true⟩ ∧
    isBroken CandidateOutcome.loadError = true :=
  ⟨resolver_first_success_wins.1 [CandidateOutcome.loadError]
      [CandidateOutcome.noExport] okFactory none
      (fun c hc => by rw [List.mem_singleton] at hc; rw [hc]; rfl),
   resolver_first_success_wins.2.1 [CandidateOutcome.loadError] none
      (fun c hc => by rw [List.mem_singleton] at hc; rw [hc]; rfl),
   resolver_first_success_wins.2.2 [CandidateOutcome.loadError] none rfl
      CandidateOutcome.loadError (List.mem_singleton.mpr rfl)⟩

/-- Claim C3: when a handle is held and the backend call throws, every
tool returns (never throws) the structured failure payload whose error
field is the exception's message — for search with an empty results
list — and the dispatch leaves the module state (connection state and
cached stats included) exactly as it was. -/
theorem backend_throw_structured_failure (st : ModuleState) (b : BackendBehavior)
    (params : Params) (msg : String) (hb : st.memoryBridge = some b) :
    (∀ k c, readStringParam params "key" true true = Except.ok (some k) →
      readStringParam params "content" true true = Except.ok (some c) →
      b.writeR k c (readStringOpt params "namespace")
          (readStringArrayParam params "tags") = Except.error msg →
      toolInvoke st memoryStoreExec params =
        (⟨Except.ok (storeFailure msg),
          [BackendCall.write k c (readStringOpt params "namespace")
            (readStringArrayParam params "tags")]⟩, st)) ∧
    (∀ q, readStringParam params "query" true true = Except.ok (some q) →
      b.searchR q (searchOptsOf params) = Except.error msg →
      toolInvoke st memorySearchExec params =
        (⟨Except.ok (searchFailure msg),
          [BackendCall.search q (searchOptsOf params)]⟩, st)) ∧
    (∀ k, readStringParam params "key" true true = Except.ok (some k) →
      b.readR k = Except.error msg →
      toolInvoke st memoryReadExec params =
        (⟨Except.ok (readFailure k msg), [BackendCall.read k]⟩, st)) ∧
    (∀ k, readStringParam params "key" true true = Except.ok (some k) →
      b.deleteR k = Except.error msg →
      toolInvoke st memoryDeleteExec params =
        (⟨Except.ok (deleteFailure k msg), [BackendCall.delete k]⟩, st)) ∧
    (b.listR (listOptsOf params) = Except.error msg →
      toolInvoke st memoryListExec params =
        (⟨Except.ok (listFailure msg), [BackendCall.list (listOptsOf params)]⟩, st)) ∧
    (b.statsR = Except.error msg →
      toolInvokeStats st = (⟨Except.ok (bareError msg), [BackendCall.stats]⟩, st)) := by
  refine ⟨?_, ?_, ?_, ?_, ?_, ?_⟩
  · intro k c hk hc hw
    unfold toolInvoke
    rw [hb]
    simp only [memoryStoreExec, hk, hc, Option.getD_some]
    rw [hw]
  · intro q hq hs
    unfold toolInvoke
    rw [hb]
    simp only [memorySearchExec, hq, Option.getD_some]
    rw [hs]
  · intro k hk hr
    unfold toolInvoke
    rw [hb]
    simp only [memoryReadExec, hk, Option.getD_some]
    rw [hr]
  · intro k hk hd
    unfold toolInvoke
    rw [hb]
    simp only [memoryDeleteExec, hk, Option.getD_some]
    rw [hd]
  · intro hl
    unfold toolInvoke
    rw [hb]
    simp only [memoryListExec]
    rw [hl]
  · intro hs
    unfold toolInvokeStats
    rw [hb]
    simp only [memoryStatsExec]
    rw [hs]

/-- Witness for C3: a connected state holding a backend whose every
operation throws "boom", invoked with concrete well-typed parameters. -/
theorem backend_throw_structured_failure_witness :
    toolInvoke stThrow memoryStoreExec paramsKCQ =
      (⟨Except.ok (storeFailure "boom"),
        [BackendCall.write "k" "c" none none]⟩, stThrow) ∧
    toolInvoke stThrow memorySearchExec paramsKCQ =
      (⟨Except.ok (searchFailure "boom"),
        [BackendCall.search "q" (searchOptsOf paramsKCQ)]⟩, stThrow) ∧
    toolInvoke stThrow memoryReadExec paramsKCQ =
      (⟨Except.ok (readFailure "k" "boom"), [BackendCall.read "k"]⟩, stThrow) ∧
    toolInvoke stThrow memoryDeleteExec paramsKCQ =
      (⟨Except.ok (deleteFailure "k" "boom"), [BackendCall.delete "k"]⟩, stThrow) ∧
    toolInvoke stThrow memoryListExec paramsKCQ =
      (⟨Except.ok (listFailure "boom"),
        [BackendCall.list (listOptsOf paramsKCQ)]⟩, stThrow) ∧
    toolInvokeStats stThrow = (⟨Except.ok (bareError "boom"), [BackendCall.stats]⟩, stThrow) :=
  ⟨(backend_throw_structured_failure stThrow throwingBackend paramsKCQ "boom" rfl).1
      "k" "c" rfl rfl rfl,
   (backend_throw_structured_failure stThrow throwingBackend paramsKCQ "boom" rfl).2.1
      "q" rfl rfl,
   (backend_throw_structured_failure stThrow throwingBackend paramsKCQ "boom" rfl).2.2.1
      "k" rfl rfl,
   (backend_throw_structured_failure stThrow throwingBackend paramsKCQ "boom" rfl).2.2.2.1
      "k" rfl rfl,
   (backend_throw_structured_failure stThrow throwingBackend paramsKCQ "boom" rfl).2.2.2.2.1
      rfl,
   (backend_throw_structured_failure stThrow throwingBackend paramsKCQ "boom" rfl).2.2.2.2.2
      rfl⟩

/-- Claim C10: memory_read and memory_delete depend on nothing but the
key parameter — in particular two parameter sets agreeing on key but
differing in namespace produce identical results — and with a handle
held the backend is called exactly once, with the key alone. -/
theorem read_delete_key_only :
    (∀ (bridge : Option BackendBehavior) (p1 p2 : Params),
      p1.lookup "key" = p2.lookup "key" →
      memoryReadExec bridge p1 = memoryReadExec bridge p2) ∧
    (∀ (bridge : Option BackendBehavior) (p1 p2 : Params),
      p1.lookup "key" = p2.lookup "key" →
      memoryDeleteExec bridge p1 = memoryDeleteExec bridge p2) ∧
    (∀ (b : BackendBehavior) (params : Params) (k : String),
      readStringParam params "key" true true = Except.ok (some k) →
      (memoryReadExec (some b) params).calls = [BackendCall.read k] ∧
      (memoryDeleteExec (some b) params).calls = [BackendCall.delete k]) := by
  refine ⟨?_, ?_, ?_⟩
  · intro bridge p1 p2 h
    cases bridge with
    | none => rfl
    | some b =>
        have hr : readStringParam p1 "key" true true =
            readStringParam p2 "key" true true := by
          unfold readStringParam
          rw [h]
        unfold memoryReadExec
        rw [hr]
  · intro bridge p1 p2 h
    cases bridge with
    | none => rfl
    | some b =>
        have hr : readStringParam p1 "key" true true =
            readStringParam p2 "key" true true := by
          unfold readStringParam
          rw [h]
        unfold memoryDeleteExec
        rw [hr]
  · intro b params k hk
    constructor
    · cases hr : b.readR k with
      | ok v =>
          cases v <;> simp [memoryReadExec, hk, Option.getD_some, hr]
      | error e => simp [memoryReadExec, hk, Option.getD_some, hr]
    · cases hd : b.deleteR k with
      | ok v => simp [memoryDeleteExec, hk, Option.getD_some, hd]
      | error e => simp [memoryDeleteExec, hk, Option.getD_some, hd]

/-- Witness for C10: read and delete at parameter sets differing only in
namespace, and the resulting single-key backend call. -/
theorem read_delete_key_only_witness :
    memoryReadExec (some trivialBackend)
        [("key", JsonValue.vStr "k"), ("namespace", JsonValue.vStr "internal")] =
      memoryReadExec (some trivialBackend)
        [("key", JsonValue.vStr "k"), ("namespace", JsonValue.vStr "drop_all")] ∧
    memoryDeleteExec (some trivialBackend)
        [("key", JsonValue.vStr "k"), ("namespace", JsonValue.vStr "internal")] =
      memoryDeleteExec (some trivialBackend)
        [("key", JsonValue.vStr "k"), ("namespace", JsonValue.vStr "drop_all")] ∧
    (memoryReadExec (some trivialBackend)
        [("key", JsonValue.vStr "k"), ("namespace", JsonValue.vStr "internal")]).calls =
      [BackendCall.read "k"] ∧
    (memoryDeleteExec (some trivialBackend)
        [("key", JsonValue.vStr "k"), ("namespace", JsonValue.vStr "internal")]).calls =
      [BackendCall.delete "k"] :=
  ⟨read_delete_key_only.1 (some trivialBackend) _ _ rfl,
   read_delete_key_only.2.1 (some trivialBackend) _ _ rfl,
   (read_delete_key_only.2.2 trivialBackend
      [("key", JsonValue.vStr "k"), ("namespace", JsonValue.vStr "internal")] "k" rfl).1,
   (read_delete_key_only.2.2 trivialBackend
      [("key", JsonValue.vStr "k"), ("namespace", JsonValue.vStr "internal")] "k" rfl).2⟩

/-- Counterexample to claim C4: with a handle held, invoking memory_store
with no parameters at all makes execute THROW "key required" (the
required-parameter reads sit outside the try/catch), so the rejection
escapes the dispatcher boundary as an exception instead of being
returned as a structured failure result. -/
theorem store_missing_key_throws :
    memoryStoreExec (some trivialBackend) ([] : Params) =
      ⟨Except.error "key required", []⟩ :=
  rfl

/-- Claim C4 as amended: a missing, non-string or empty-after-trim
required parameter is rejected before any backend call (the backend call
trace is empty), but — when a handle is held — the rejection propagates
as the thrown "<key> required" exception out of execute rather than
being returned as a structured failure result.  (With no handle held the
not-connected structured result is returned before validation, per C2.) -/
theorem required_param_throw_before_backend (b : BackendBehavior) (params : Params)
    (e : String) :
    (readStringParam params "key" true true = Except.error e →
      memoryStoreExec (some b) params = ⟨Except.error e, []⟩ ∧
      memoryReadExec (some b) params = ⟨Except.error e, []⟩ ∧
      memoryDeleteExec (some b) params = ⟨Except.error e, []⟩) ∧
    (readStringParam params "query" true true = Except.error e →
      memorySearchExec (some b) params = ⟨Except.error e, []⟩) ∧
    (∀ k, readStringParam params "key" true true = Except.ok (some k) →
      readStringParam params "content" true true = Except.error e →
      memoryStoreExec (some b) params = ⟨Except.error e, []⟩) := by
  refine ⟨?_, ?_, ?_⟩
  · intro hk
    exact ⟨by simp [memoryStoreExec, hk], by simp [memoryReadExec, hk],
      by simp [memoryDeleteExec, hk]⟩
  · intro hq
    simp [memorySearchExec, hq]
  · intro k hk hc
    simp [memoryStoreExec, hk, hc]

/-- Witness for the amended C4: a missing key, a missing query, and a
present key with a non-string content. -/
theorem required_param_throw_before_backend_witness :
    memoryStoreExec (some trivialBackend)
        [("key", JsonValue.vStr "k"), ("content", JsonValue.vNum 3)] =
      ⟨Except.error "content required", []⟩ ∧
    memoryReadExec (some trivialBackend) ([] : Params) =
      ⟨Except.error "key required", []⟩ ∧
    memorySearchExec (some trivialBackend) ([] : Params) =
      ⟨Except.error "query required", []⟩ :=
  ⟨(required_param_throw_before_backend trivialBackend
      [("key", JsonValue.vStr "k"), ("content", JsonValue.vNum 3)]
      "content required").2.2 "k" rfl rfl,
   ((required_param_throw_before_backend trivialBackend [] "key required").1 rfl).2.1,
   (required_param_throw_before_backend trivialBackend [] "query required").2.1 rfl⟩

/-- Counterexample to claim C5: the memory_store tool of the enterprise
tool set (tools.ts, the one createMemoryBridgeTools registers) performs
no namespace validation at all — with a handle held and namespace
"drop_all" the backend IS invoked, with "drop_all" forwarded verbatim,
and the call reports success. -/
theorem store_forwards_unvalidated_nspace :
    memoryStoreExec (some trivialBackend)
      [("key", JsonValue.vStr "k"), ("content", JsonValue.vStr "c"),
       ("namespace", JsonValue.vStr "drop_all")] =
      ⟨Except.ok (JsonValue.vObj [("success", JsonValue.vBool true),
        ("key", JsonValue.vStr "k"), ("namespace", JsonValue.vStr "drop_all")]),
       [BackendCall.write "k" "c" (some "drop_all") none]⟩ :=
  rfl

/-- Claim C5 as amended: validateSchema (config.ts) normalizes by
case-folding then trimming and checks the fixed allow-list — "Internal"
is accepted exactly because its normal form "internal" is allow-listed,
"drop_all" is rejected with the invalid-schema failure — and in the
config.ts plugin variant whose store tool calls it, the check happens
before anything else, with no backend and no connection state in
reach; the tools.ts tool set, however, performs no such validation
(see the counterexample). -/
theorem validate_schema_allowlist (s : String) :
    (ALLOWED_SCHEMAS.contains (jsTrim (jsToLower s)) = true →
      validateSchema s = Except.ok (jsTrim (jsToLower s))) ∧
    (ALLOWED_SCHEMAS.contains (jsTrim (jsToLower s)) = false →
      validateSchema s = Except.error ("Invalid schema: " ++ s)) ∧
    validateSchema "Internal" = Except.ok "internal" ∧
    validateSchema "drop_all" = Except.error "Invalid schema: drop_all" ∧
    (∀ dflt k v, cfgMemoryStoreExec dflt k v (some "drop_all") =
      ⟨"Error: Invalid schema: drop_all", true⟩) ∧
    (∀ dflt k v, cfgMemoryStoreExec dflt k v (some "Internal") =
        cfgMemoryStoreExec dflt k v (some "internal") ∧
      (cfgMemoryStoreExec dflt k v (some "Internal")).isError = false) := by
  refine ⟨?_, ?_, rfl, rfl, fun dflt k v => rfl, fun dflt k v => ⟨rfl, rfl⟩⟩
  · intro h
    have h2 : jsTrim (jsToLower s) ∈ ALLOWED_SCHEMAS := by simpa using h
    simp [validateSchema, h2]
  · intro h
    have h2 : jsTrim (jsToLower s) ∉ ALLOWED_SCHEMAS := by simpa using h
    simp [validateSchema, h2]

/-- Witness for the amended C5: an allow-listed name needing
normalization, and a name outside the allow-list. -/
theorem validate_schema_allowlist_witness :
    validateSchema "Shared_Patterns" = Except.ok "shared_patterns" ∧
    validateSchema "public" = Except.error ("Invalid schema: " ++ "public") :=
  ⟨(validate_schema_allowlist "Shared_Patterns").1 rfl,
   (validate_schema_allowlist "public").2.1 rfl⟩

/-- start outcome: resolution yielded no factory. -/
lemma startStep_fail_none (st : ModuleState) (cfg : PluginConfig) (env : EnvVars)
    (cands : List CandidateOutcome) (direct : Option Factory)
    (firstStats : Except String MemoryStats)
    (him : (importMemoryBridge cands direct).result = none) :
    startStep st cfg env cands direct firstStats =
      { st with lastError := some loadFailureMessage, isConnected := false } := by
  unfold startStep
  rw [him]

/-- start outcome: the factory's connect routine threw. -/
lemma startStep_fail_connect (st : ModuleState) (cfg : PluginConfig) (env : EnvVars)
    (cands : List CandidateOutcome) (direct : Option Factory)
    (firstStats : Except String MemoryStats) (f : Factory) (msg : String)
    (him : (importMemoryBridge cands direct).result = some f)
    (hf : f (buildBridgeConfig cfg env) = Except.error msg) :
    startStep st cfg env cands direct firstStats =
      { st with lastError := some msg, isConnected := false } := by
  unfold startStep
  simp only [him]
  rw [hf]

/-- start outcome: connect succeeded — the handle is installed and the
connected flag set, whatever the initial stats fetch did. -/
lemma startStep_ok (st : ModuleState) (cfg : PluginConfig) (env : EnvVars)
    (cands : List CandidateOutcome) (direct : Option Factory)
    (firstStats : Except String MemoryStats) (f : Factory) (handle : BackendBehavior)
    (him : (importMemoryBridge cands direct).result = some f)
    (hf : f (buildBridgeConfig cfg env) = Except.ok handle) :
    (startStep st cfg env cands direct firstStats).memoryBridge = some handle ∧
    (startStep st cfg env cands direct firstStats).isConnected = true := by
  unfold startStep
  simp only [him]
  rw [hf]
  cases firstStats <;> exact ⟨rfl, rfl⟩

/-- One step preserves "connected implies a handle is held"
unconditionally. -/
lemma step_preserves_handle_imp (st : ModuleState) (e : Event)
    (h : st.isConnected = true → st.memoryBridge.isSome = true) :
    (step st e).isConnected = true → (step st e).memoryBridge.isSome = true := by
  cases e with
  | start cfg env cands direct firstStats =>
      simp only [step]
      cases him : (importMemoryBridge cands direct).result with
      | none =>
          rw [startStep_fail_none st cfg env cands direct firstStats him]
          intro hc
          exact Bool.noConfusion hc
      | some f =>
          cases hf : f (buildBridgeConfig cfg env) with
          | error msg =>
              rw [startStep_fail_connect st cfg env cands direct firstStats f msg him hf]
              intro hc
              exact Bool.noConfusion hc
          | ok handle =>
              intro _
              rw [(startStep_ok st cfg env cands direct firstStats f handle him hf).1]
              rfl
  | stop d =>
      intro hc
      exact Bool.noConfusion hc
  | tick o =>
      intro hc
      rw [show (step st (Event.tick o)) = tickStep st o from rfl,
        tickStep_memoryBridge]
      apply h
      rw [← tickStep_isConnected st o]
      exact hc

/-- One step from a state satisfying the connected/handle equivalence,
taken under the well-formedness discipline (start only without a held
handle), preserves the equivalence. -/
lemma step_preserves_iff (st : ModuleState) (e : Event)
    (h : st.isConnected = st.memoryBridge.isSome) (hok : stepOk st e = true) :
    (step st e).isConnected = (step st e).memoryBridge.isSome := by
  cases e with
  | start cfg env cands direct firstStats =>
      have hmb : st.memoryBridge = none := by
        simpa [stepOk, Option.isNone_iff_eq_none] using hok
      simp only [step]
      cases him : (importMemoryBridge cands direct).result with
      | none =>
          rw [startStep_fail_none st cfg env cands direct firstStats him]
          simp [hmb]
      | some f =>
          cases hf : f (buildBridgeConfig cfg env) with
          | error msg =>
              rw [startStep_fail_connect st cfg env cands direct firstStats f msg him hf]
              simp [hmb]
          | ok handle =>
              rw [(startStep_ok st cfg env cands direct firstStats f handle him hf).1,
                (startStep_ok st cfg env cands direct firstStats f handle him hf).2]
              rfl
  | stop d => rfl
  | tick o =>
      rw [show (step st (Event.tick o)) = tickStep st o from rfl,
        tickStep_isConnected, tickStep_memoryBridge]
      exact h

/-- Folding well-formed events preserves the equivalence. -/
lemma foldl_preserves_iff :
    ∀ (es : List Event) (st : ModuleState),
      st.isConnected = st.memoryBridge.isSome → runOk st es = true →
      (es.foldl step st).isConnected = (es.foldl step st).memoryBridge.isSome := by
  intro es
  induction es with
  | nil => intro st h _; exact h
  | cons e rest ih =>
      intro st h hok
      simp only [runOk, Bool.and_eq_true] at hok
      exact ih (step st e) (step_preserves_iff st e h hok.1) hok.2

/-- Folding any events preserves the one-directional implication. -/
lemma foldl_preserves_imp :
    ∀ (es : List Event) (st : ModuleState),
      (st.isConnected = true → st.memoryBridge.isSome = true) →
      ((es.foldl step st).isConnected = true →
        (es.foldl step st).memoryBridge.isSome = true) := by
  intro es
  induction es with
  | nil => intro st h; exact h
  | cons e rest ih =>
      intro st h
      exact ih (step st e) (step_preserves_handle_imp st e h)

/-- Counterexample to claim C9: the event sequence start(success) then
start(failure) — a sequence of start/stop/tick transitions — reaches a
state where the old handle is still held while status().connected is
false: a failed start only clears the connected flag, it does not clear
a handle installed by an earlier start. -/
theorem connected_iff_handle_fails :
    (run [Event.start cfgNone envNone [CandidateOutcome.factory okFactory] none
        (Except.error "s"),
      Event.start cfgNone envNone [] none (Except.error "s")]).memoryBridge.isSome
      = true ∧
    (getMemoryBridgeStatus (run [Event.start cfgNone envNone
        [CandidateOutcome.factory okFactory] none (Except.error "s"),
      Event.start cfgNone envNone [] none (Except.error "s")])).connected = false :=
  ⟨rfl, rfl⟩

/-- Claim C9 as amended: over event sequences in which start() is only
invoked while no handle is held (the host lifecycle: process start,
after stop(), or after a previous failed start that installed nothing),
status().connected is true exactly when a handle is held; and in every
reachable state without restriction, connected = true still implies a
handle is held.  At process start, after stop(), and after a failed
first start, connected is false and the handle absent. -/
theorem connected_handle_invariant :
    (∀ es : List Event, runOk initialState es = true →
      (getMemoryBridgeStatus (run es)).connected = (run es).memoryBridge.isSome) ∧
    (∀ es : List Event, (getMemoryBridgeStatus (run es)).connected = true →
      (run es).memoryBridge.isSome = true) := by
  constructor
  · intro es h
    exact foldl_preserves_iff es initialState rfl h
  · intro es h
    exact foldl_preserves_imp es initialState (fun hc => Bool.noConfusion hc) h

/-- Witness for the amended C9: a well-formed sequence — failed start,
stop, tick — on which the equivalence is instantiated. -/
theorem connected_handle_invariant_witness :
    (getMemoryBridgeStatus (run [Event.start cfgNone envNone [] none (Except.error "s"),
        Event.stop (Except.ok ()), Event.tick (Except.error "t")])).connected =
      (run [Event.start cfgNone envNone [] none (Except.error "s"),
        Event.stop (Except.ok ()), Event.tick (Except.error "t")]).memoryBridge.isSome :=
  connected_handle_invariant.1
    [Event.start cfgNone envNone [] none (Except.error "s"),
     Event.stop (Except.ok ()), Event.tick (Except.error "t")] rfl

end MemoryBridge
